import Mathlib

/-!
Verification of the data-acquisition and normalization layer of a Koha OPAC
terminal client, shallowly embedded from `src/api/client.py`.

Conventions of the embedding:
* Python `int` becomes `Int` (or `Nat` for record identifiers that are only
  ever produced by parsing decimal digits); Python `str` becomes `String`.
* Python `Optional[T]` becomes `Option T`; a JSON key that may be absent and
  defaults via `dict.get(key, default)` is modelled as a structure field with
  that default.
* Python `x or y` on strings (falsy iff empty) becomes `strOr`.
* The `httpx` transport is modelled by an `HttpOutcome` oracle: either a
  response with a status code and an already-decoded body, or a raised
  exception carrying its stringified message (the code catches `Exception`
  generically and returns `str(e)`).
* The `re` module is modelled by a small backtracking matcher over
  `List Char` with Python's leftmost, priority-ordered match semantics;
  each Python pattern is transcribed as a `Re` value.
-/

/-- Python `a or b` for strings: `a` is falsy exactly when it is empty. -/
def strOr (a b : String) : String := if a = "" then b else a

/-- Python `title or f"Record #{biblio_id}"` as used by all three parsers. -/
def titleOr (t : String) (biblio_id : Nat) : String :=
  if t = "" then "Record #" ++ toString biblio_id else t

/-! ## Record model (`BiblioRecord`, `HoldingItem`, `SearchResult`) -/

/-- `BiblioRecord` dataclass from `src/api/client.py` (lines 26-45).
The opaque `raw_data` dict is omitted: no verified claim observes it. -/
structure BiblioRecord where
  biblio_id : Nat
  title : String := ""
  author : String := ""
  publication_year : Option String := none
  publisher : String := ""
  isbn : String := ""
  item_type : String := ""
  call_number : String := ""
  call_number_lcc : String := ""
  call_number_dewey : String := ""
  subjects : List String := []
  notes : String := ""
  edition : String := ""
  physical_description : String := ""
  series : String := ""
  summary : String := ""
deriving DecidableEq

/-- `BiblioRecord.get_call_number` (lines 47-68). -/
def BiblioRecord.get_call_number (r : BiblioRecord) (display_mode : String) : String :=
  if display_mode = "lcc" then
    strOr r.call_number_lcc (strOr r.call_number "")
  else if display_mode = "dewey" then
    strOr r.call_number_dewey (strOr r.call_number "")
  else
    let parts : List String :=
      (if r.call_number_lcc ≠ "" then ["LOC: " ++ r.call_number_lcc] else []) ++
      (if r.call_number_dewey ≠ "" then ["DDC: " ++ r.call_number_dewey] else [])
    if parts ≠ [] then String.intercalate " | " parts
    else strOr r.call_number ""

/-- `HoldingItem` dataclass (lines 71-86). -/
structure HoldingItem where
  item_id : Int
  barcode : String := ""
  library_id : String := ""
  library_name : String := ""
  location : String := ""
  call_number : String := ""
  copy_number : Option Int := none
  status : String := ""
  is_available : Bool := true
  due_date : Option String := none
  item_type : String := ""
  notes : String := ""
  public_note : String := ""
deriving DecidableEq

/-- `SearchResult` dataclass (lines 89-95). -/
structure SearchResult where
  records : List BiblioRecord
  total_count : Int
  page : Int
  per_page : Int
deriving DecidableEq

/-- `SearchResult.total_pages` (lines 97-102).  Python `//` on integers is
floor division, hence `Int.fdiv`. -/
def SearchResult.total_pages (s : SearchResult) : Int :=
  if s.per_page ≤ 0 then 1
  else Int.fdiv (s.total_count + s.per_page - 1) s.per_page

/-- `SearchResult.has_next` (lines 104-107). -/
def SearchResult.has_next (s : SearchResult) : Bool :=
  decide (s.page < s.total_pages)

/-- `SearchResult.has_prev` (lines 109-112). -/
def SearchResult.has_prev (s : SearchResult) : Bool :=
  decide (s.page > 1)

/-! ## Item (holding) parsing -/

/-- The JSON payload consumed by `_parse_item_json` (lines 777-824), with the
exact keys the code reads via `data.get(...)`; a key absent from the payload
is represented by the corresponding `get` default.  The availability flags
are Koha integers (0 = clear). -/
structure ItemJson where
  item_id : Int := 0
  barcode : String := ""
  not_for_loan_status : Int := 0
  lost_status : Int := 0
  damaged_status : Int := 0
  withdrawn : Int := 0
  checked_out_date : Option String := none
  holding_library_id : String := ""
  home_library_id : String := ""
  location : String := ""
  callnumber : String := ""
  copy_number : Option Int := none
  due_date : Option String := none
  item_type_id : String := ""
  public_note : String := ""
deriving DecidableEq

/-- Python `dict.get(k, k)` on the library-name cache (`self._libraries.get(library_id, library_id)`). -/
def lookupDefault (m : List (String × String)) (k : String) : String :=
  match m.find? (fun p => p.1 == k) with
  | some p => p.2
  | none => k

/-- `KohaAPIClient._parse_item_json` (lines 777-824).  `libraries` stands for
the client's `self._libraries` cache. -/
def parse_item_json (libraries : List (String × String)) (data : ItemJson) : HoldingItem :=
  let not_for_loan := data.not_for_loan_status
  let lost_status := data.lost_status
  let damaged_status := data.damaged_status
  let withdrawn := data.withdrawn
  let checked_out := data.checked_out_date.isSome
  let is_available := decide (not_for_loan = 0) && decide (lost_status = 0) &&
    decide (damaged_status = 0) && decide (withdrawn = 0) && !checked_out
  let status :=
    if checked_out then "On Loan"
    else if lost_status ≠ 0 then "Lost"
    else if damaged_status ≠ 0 then "Damaged"
    else if withdrawn ≠ 0 then "Withdrawn"
    else if not_for_loan ≠ 0 then "Reference Only"
    else "Available"
  let library_id := strOr data.holding_library_id data.home_library_id
  { item_id := data.item_id
    barcode := data.barcode
    library_id := library_id
    library_name := lookupDefault libraries library_id
    location := data.location
    call_number := data.callnumber
    copy_number := data.copy_number
    status := status
    is_available := is_available
    due_date := data.due_date
    item_type := data.item_type_id
    notes := data.public_note
    public_note := data.public_note }

/-! ## Library-name cache (`get_libraries`, lines 735-755) -/

/-- One element of the `libraries` endpoint response list; `name` may be
absent, in which case `lib.get("name", lib_id)` falls back to the id. -/
structure LibraryJson where
  library_id : String := ""
  name : Option String := none
deriving DecidableEq

/-- Python dict assignment `m[k] = v`: overwrite in place if the key exists,
else append (insertion order preserved). -/
def dictInsert (m : List (String × String)) (k v : String) : List (String × String) :=
  if m.any (fun p => p.1 == k) then
    m.map (fun p => if p.1 == k then (k, v) else p)
  else m ++ [(k, v)]

/-- `KohaAPIClient.get_libraries` (lines 735-755), in state-passing form.
`cache` is `self._libraries` on entry; `fetched` is the `(data, error)` pair
the `self._get("libraries")` call would produce (its `items` list already
extracted).  Returns `((mapping, error), new cache, whether a network request
was issued)`. -/
def get_libraries (cache : List (String × String))
    (fetched : Option (List LibraryJson) × Option String) :
    (List (String × String) × Option String) × List (String × String) × Bool :=
  if cache ≠ [] then ((cache, none), cache, false)
  else
    match fetched with
    | (_, some e) => (([], some e), cache, true)
    | (none, none) => (([], none), cache, true)
    | (some items, none) =>
      let newCache := items.foldl
        (fun m lib => dictInsert m lib.library_id (lib.name.getD lib.library_id)) cache
      ((newCache, none), newCache, true)

/-! ## A small backtracking regex matcher

Models the fragment of Python `re` used by `client.py`: literals (all
searches there pass `re.IGNORECASE`, so literal and class comparison is
case-insensitive), `\d`, `\s`, `.` (with and without `DOTALL`), positive and
negated character classes, greedy and lazy repetition, `?`, alternation,
capture groups and `$` (end of string, or just before a lone trailing
newline).  Matching is continuation-passing with Python's ordering: the
first alternative explored wins, greedy stars prefer longer, lazy stars
prefer shorter.  All recursion is structural (fuel-indexed at star
unrollings) so the kernel can evaluate matches inside `decide`/`rfl`. -/

/-- Python `\s` (ASCII). -/
def pySpace (c : Char) : Bool :=
  c == ' ' || c == '\t' || c == '\n' || c == '\r' || c == '\x0b' || c == '\x0c'

/-- Python `\w` (ASCII), used by the `\b` word boundary. -/
def pyWordChar (c : Char) : Bool := c.isAlphanum || c == '_'

/-- Single-character matchers. -/
inductive RC where
  | lit (c : Char)
  | digit
  | space
  | dot
  | dotAll
  | oneOf (cs : List Char)
  | noneOf (cs : List Char)

/-- Character-level semantics (case-insensitive, matching `re.IGNORECASE`). -/
def RC.matchChar : RC → Char → Bool
  | .lit c, d => c.toLower == d.toLower
  | .digit, d => d.isDigit
  | .space, d => pySpace d
  | .dot, d => d != '\n'
  | .dotAll, _ => true
  | .oneOf cs, d => cs.any (fun c => c.toLower == d.toLower)
  | .noneOf cs, d => cs.all (fun c => c.toLower != d.toLower)

/-- Regular expressions (the fragment used by the Python source). -/
inductive Re where
  | eps
  | cls (c : RC)
  | seq (a b : Re)
  | alt (a b : Re)
  | starG (a : Re)
  | starL (a : Re)
  | opt (a : Re)
  | group (n : Nat) (a : Re)
  | eos

/-- Captured groups: group number paired with the consumed characters. -/
abbrev Caps := List (Nat × List Char)

/-- A match result: remaining input after the match, plus captures. -/
abbrev MRes := List Char × Caps

/-- Fuel-exhausted matcher (never reached when fuel exceeds input length,
since every star iteration must consume at least one character). -/
def mtch0 : Re → List Char → Caps → (List Char → Caps → Option MRes) → Option MRes :=
  fun _ _ _ _ => none

/-- One fuel level of the matcher: structural recursion over the regex, with
star self-recursion delegated to the lower-fuel matcher `sr`. -/
def mtchS (sr : Re → List Char → Caps → (List Char → Caps → Option MRes) → Option MRes) :
    Re → List Char → Caps → (List Char → Caps → Option MRes) → Option MRes
  | .eps, s, caps, k => k s caps
  | .cls c, s, caps, k =>
    match s with
    | [] => none
    | d :: t => if c.matchChar d then k t caps else none
  | .seq a b, s, caps, k => mtchS sr a s caps (fun s' c' => mtchS sr b s' c' k)
  | .alt a b, s, caps, k =>
    match mtchS sr a s caps k with
    | some r => some r
    | none => mtchS sr b s caps k
  | .starG a, s, caps, k =>
    match mtchS sr a s caps
        (fun s' c' => if s'.length < s.length then sr (.starG a) s' c' k else none) with
    | some r => some r
    | none => k s caps
  | .starL a, s, caps, k =>
    match k s caps with
    | some r => some r
    | none => mtchS sr a s caps
        (fun s' c' => if s'.length < s.length then sr (.starL a) s' c' k else none)
  | .opt a, s, caps, k =>
    match mtchS sr a s caps k with
    | some r => some r
    | none => k s caps
  | .group n a, s, caps, k =>
    mtchS sr a s caps (fun s' c' => k s' ((n, s.take (s.length - s'.length)) :: c'))
  | .eos, s, caps, k => if s.isEmpty || s == ['\n'] then k s caps else none

/-- The matcher, by fuel. -/
def mtch : Nat → Re → List Char → Caps → (List Char → Caps → Option MRes) → Option MRes
  | 0 => mtch0
  | f + 1 => mtchS (mtch f)

/-- Anchored match attempt at the current position. -/
def tryMatch (r : Re) (s : List Char) : Option MRes :=
  mtch (s.length + 1) r s [] (fun rest caps => some (rest, caps))

/-- `re.search`: leftmost match; returns captures and the input remaining
after the match. -/
def searchFrom (r : Re) : List Char → Option (Caps × List Char)
  | [] =>
    match tryMatch r [] with
    | some (rest, caps) => some (caps, rest)
    | none => none
  | c :: t =>
    match tryMatch r (c :: t) with
    | some (rest, caps) => some (caps, rest)
    | none => searchFrom r t

/-- `re.finditer` worker: repeated leftmost search, resuming after each
match.  All patterns iterated in the source consume at least one character,
so a non-advancing match stops the scan (it cannot occur). -/
def findAllGo (r : Re) : Nat → List Char → List Caps
  | 0, _ => []
  | f + 1, s =>
    match searchFrom r s with
    | none => []
    | some (caps, rest) =>
      if rest.length < s.length then caps :: findAllGo r f rest
      else [caps]

/-- `re.finditer`, collecting the captures of every match. -/
def findAll (r : Re) (s : List Char) : List Caps := findAllGo r (s.length + 1) s

/-- First capture of a given group number (groups are not repeated under
stars in any source pattern, so the first entry is the match's capture). -/
def capGet (caps : Caps) (n : Nat) : List Char :=
  match caps.find? (fun p => p.1 == n) with
  | some p => p.2
  | none => []

/-- `re.sub(pattern, "", s)` worker: replace every (non-empty) match with
the empty string, scanning left to right and resuming after each match. -/
def reSubGo (r : Re) : Nat → List Char → List Char
  | 0, s => s
  | f + 1, s =>
    match tryMatch r s with
    | some (rest, _) =>
      if rest.length < s.length then reSubGo r f rest
      else
        match s with
        | [] => []
        | c :: t => c :: reSubGo r f t
    | none =>
      match s with
      | [] => []
      | c :: t => c :: reSubGo r f t

/-- `re.sub(pattern, "", s)` for patterns that cannot match empty. -/
def reSubAll (r : Re) (s : List Char) : List Char := reSubGo r (s.length + 1) s

/-- `re.sub` for a `^`-anchored pattern (matches at position 0 only). -/
def subStart (r : Re) (s : List Char) : List Char :=
  match tryMatch r s with
  | some (rest, _) => rest
  | none => s

/-- Decimal digits to `Nat` (Python `int` on a `\d+` capture). -/
def toNatDigits (l : List Char) : Nat :=
  l.foldl (fun a c => a * 10 + (c.toNat - 48)) 0

/-- Python `str.strip()`. -/
def pstrip (s : List Char) : List Char :=
  ((s.dropWhile pySpace).reverse.dropWhile pySpace).reverse

/-- Python `str.strip()` on `String`. -/
def pstripS (s : String) : String := String.mk (pstrip s.data)

/-- Python `str.rstrip(cs)`. -/
def rstripSet (cs : List Char) (s : List Char) : List Char :=
  (s.reverse.dropWhile (fun c => cs.contains c)).reverse

/-- Python `str.rstrip(cs)` on `String`. -/
def rstripS (cs : String) (s : String) : String :=
  String.mk (rstripSet cs.data s.data)

/-- Literal string as a regex. -/
def rlit (s : String) : Re :=
  s.data.foldr (fun c r => Re.seq (Re.cls (RC.lit c)) r) Re.eps

/-- Sequencing a list of regexes. -/
def rseq (l : List Re) : Re := l.foldr Re.seq Re.eps

/-- `+` (greedy). -/
def rplus (r : Re) : Re := Re.seq r (Re.starG r)

/-! ## Patterns of `_parse_opac_html_results` (lines 341-450) -/

/-- Python `r'returned\s+(\d+)\s+results?'` (IGNORECASE). -/
def reTotal : Re := rseq [rlit "returned", rplus (.cls .space),
  .group 1 (rplus (.cls .digit)), rplus (.cls .space), rlit "result",
  .opt (.cls (.lit 's'))]

/-- Python `r'<div\s+id="title_summary_(\d+)"[^>]*class="title_summary"[^>]*>(.*?)</div>\s*</td>'`
(IGNORECASE | DOTALL). -/
def reBlock : Re := rseq [rlit "<div", rplus (.cls .space),
  rlit "id=\"title_summary_", .group 1 (rplus (.cls .digit)), rlit "\"",
  .starG (.cls (.noneOf ['>'])), rlit "class=\"title_summary\"",
  .starG (.cls (.noneOf ['>'])), rlit ">",
  .group 2 (.starL (.cls .dotAll)), rlit "</div>", .starG (.cls .space), rlit "</td>"]

/-- Python `r'<a[^>]*class="title"[^>]*>([^<]+)'` (IGNORECASE). -/
def reTitleA : Re := rseq [rlit "<a", .starG (.cls (.noneOf ['>'])),
  rlit "class=\"title\"", .starG (.cls (.noneOf ['>'])), rlit ">",
  .group 1 (rplus (.cls (.noneOf ['<'])))]

/-- Python `r'\s*[:/]\s*$'`. -/
def reEndPunct : Re := rseq [.starG (.cls .space), .cls (.oneOf [':', '/']),
  .starG (.cls .space), .eos]

/-- Python `r'<span\s+class="title_resp_stmt"[^>]*>([^<]+)'` (IGNORECASE). -/
def reResp : Re := rseq [rlit "<span", rplus (.cls .space),
  rlit "class=\"title_resp_stmt\"", .starG (.cls (.noneOf ['>'])), rlit ">",
  .group 1 (rplus (.cls (.noneOf ['<'])))]

/-- Python `r'[\s.]+$'`. -/
def reAuthTail : Re := rseq
  [rplus (.cls (.oneOf [' ', '\t', '\n', '\r', '\x0b', '\x0c', '.'])), .eos]

/-- Python `r'^by\s+'` (IGNORECASE); `^`-anchored, used via `subStart`. -/
def reByPfx : Re := rseq [rlit "by", rplus (.cls .space)]

/-- Python `r'class="publisher_date"[^>]*>(\d{4})'` (IGNORECASE). -/
def reYearSpan : Re := rseq [rlit "class=\"publisher_date\"",
  .starG (.cls (.noneOf ['>'])), rlit ">",
  .group 1 (rseq [.cls .digit, .cls .digit, .cls .digit, .cls .digit])]

/-- Python `r'class="publisher_name"[^>]*>([^<]+)'` (IGNORECASE). -/
def rePubName : Re := rseq [rlit "class=\"publisher_name\"",
  .starG (.cls (.noneOf ['>'])), rlit ">",
  .group 1 (rplus (.cls (.noneOf ['<'])))]

/-- Python `r'[,\s]+$'`. -/
def rePubTail : Re := rseq
  [rplus (.cls (.oneOf [',', ' ', '\t', '\n', '\r', '\x0b', '\x0c'])), .eos]

/-- Python checkbox fallback pattern (IGNORECASE):
`r'<input[^>]*name="biblionumber"[^>]*value="(\d+)"[^>]*aria-label="Select search result:\s*([^"]*)"'`. -/
def reCheckbox : Re := rseq [rlit "<input", .starG (.cls (.noneOf ['>'])),
  rlit "name=\"biblionumber\"", .starG (.cls (.noneOf ['>'])),
  rlit "value=\"", .group 1 (rplus (.cls .digit)), rlit "\"",
  .starG (.cls (.noneOf ['>'])), rlit "aria-label=\"Select search result:",
  .starG (.cls .space), .group 2 (.starG (.cls (.noneOf ['"']))), rlit "\""]

/-! ## HTML result extractor (`_parse_opac_html_results`, lines 341-450) -/

/-- One primary-pattern record (the body of the `title_summary` loop,
lines 365-420): extract and clean title, author, year and publisher from the
block capture, with `title or f"Record #{biblio_id}"` as the title. -/
def parseBlockRecord (caps : Caps) : BiblioRecord :=
  let biblio_id := toNatDigits (capGet caps 1)
  let block := capGet caps 2
  let title :=
    match searchFrom reTitleA block with
    | some (c, _) => reSubAll reEndPunct (pstrip (capGet c 1))
    | none => []
  let author :=
    match searchFrom reResp block with
    | some (c, _) => subStart reByPfx (reSubAll reAuthTail (pstrip (capGet c 1)))
    | none => []
  let pub_year :=
    match searchFrom reYearSpan block with
    | some (c, _) => some (String.mk (capGet c 1))
    | none => none
  let publisher :=
    match searchFrom rePubName block with
    | some (c, _) => reSubAll rePubTail (pstrip (capGet c 1))
    | none => []
  { biblio_id := biblio_id
    title := titleOr (String.mk title) biblio_id
    author := String.mk author
    publication_year := pub_year
    publisher := String.mk publisher }

/-- The primary `title_summary` scan (lines 360-420). -/
def parsePrimaryRecords (html : List Char) : List BiblioRecord :=
  (findAll reBlock html).map parseBlockRecord

/-- The checkbox/aria-label fallback scan (lines 422-442). -/
def parseCheckboxRecords (html : List Char) : List BiblioRecord :=
  (findAll reCheckbox html).map (fun caps =>
    let biblio_id := toNatDigits (capGet caps 1)
    let title := reSubAll reEndPunct (pstrip (capGet caps 2))
    { biblio_id := biblio_id
      title := titleOr (String.mk title) biblio_id })

/-- `KohaAPIClient._parse_opac_html_results` (lines 341-450). -/
def parse_opac_html_results (html : String) (page per_page : Int) : SearchResult :=
  let h := html.data
  let total : Nat :=
    match searchFrom reTotal h with
    | some (caps, _) => toNatDigits (capGet caps 1)
    | none => 0
  let records := parsePrimaryRecords h
  let records := if records = [] then parseCheckboxRecords h else records
  let total := if total = 0 then records.length else total
  SearchResult.mk records (total : Int) page per_page

/-! ## MARC-in-JSON parser (`_parse_marc_in_json`, lines 522-629) -/

/-- A MARC field value: a raw string (control field) or an object whose
`subfields` list holds single-key subfield dicts (modelled as association
lists; the indicator entries are never read by the code). -/
inductive MarcData where
  | str (s : String)
  | obj (subfields : List (List (String × String)))
deriving DecidableEq

/-- One element of the `fields` array: a dict keyed by tag (association
list; Python dict keys are unique). -/
abbrev MarcField := List (String × MarcData)

/-- The decoded MARC-in-JSON body; `data.get("fields", [])`. -/
structure MarcJson where
  fields : List MarcField := []
deriving DecidableEq

/-- Python `tag in field` / `field[tag]` on a field dict. -/
def lookupTag : List (String × MarcData) → String → Option MarcData
  | [], _ => none
  | (k, v) :: rest, tag => if k = tag then some v else lookupTag rest tag

/-- Python `subfield in sf` / `sf[subfield]` on a subfield dict. -/
def lookupSub : List (String × String) → String → Option String
  | [], _ => none
  | (k, v) :: rest, sub => if k = sub then some v else lookupSub rest sub

/-- First subfield dict containing the code (inner loop of `get_field`). -/
def firstSub : List (List (String × String)) → String → Option String
  | [], _ => none
  | sf :: rest, sub =>
    match lookupSub sf sub with
    | some v => some v
    | none => firstSub rest sub

/-- `get_field` helper (lines 527-539): scan fields in document order; a
string-valued field is returned as-is (whatever subfield was asked for); an
object without the subfield lets the scan continue; absence yields `""`. -/
def get_field : List MarcField → String → String → String
  | [], _, _ => ""
  | f :: rest, tag, sub =>
    match lookupTag f tag with
    | none => get_field rest tag sub
    | some (.str s) => s
    | some (.obj sfs) =>
      match firstSub sfs sub with
      | some v => v
      | none => get_field rest tag sub

/-- All subfield dicts containing the code, within one field. -/
def allSubs : List (List (String × String)) → String → List String
  | [], _ => []
  | sf :: rest, sub =>
    match lookupSub sf sub with
    | some v => v :: allSubs rest sub
    | none => allSubs rest sub

/-- `get_all_subfields` helper (lines 541-552): collect every occurrence of
the subfield across all fields with the tag (string-valued fields
contribute nothing). -/
def get_all_subfields : List MarcField → String → String → List String
  | [], _, _ => []
  | f :: rest, tag, sub =>
    match lookupTag f tag with
    | none => get_all_subfields rest tag sub
    | some (.str _) => get_all_subfields rest tag sub
    | some (.obj sfs) => allSubs sfs sub ++ get_all_subfields rest tag sub

/-- Python `r'(\d{4})'` (year cleanup, line 571). -/
def reYear4 : Re :=
  Re.group 1 (rseq [.cls .digit, .cls .digit, .cls .digit, .cls .digit])

/-- `KohaAPIClient._parse_marc_in_json` (lines 522-629). -/
def parse_marc_in_json (biblio_id : Nat) (data : MarcJson) : BiblioRecord :=
  let fields := data.fields
  let title0 := get_field fields "245" "a"
  let subtitle := get_field fields "245" "b"
  let title1 := if subtitle ≠ "" then pstripS (title0 ++ " " ++ subtitle) else title0
  let author := strOr (get_field fields "100" "a")
    (strOr (get_field fields "110" "a") (get_field fields "700" "a"))
  let publisher := strOr (get_field fields "260" "b") (get_field fields "264" "b")
  let pub_place := strOr (get_field fields "260" "a") (get_field fields "264" "a")
  let pub_year0 := strOr (get_field fields "260" "c") (get_field fields "264" "c")
  let pub_year :=
    if pub_year0 ≠ "" then
      match searchFrom reYear4 pub_year0.data with
      | some (caps, _) => String.mk (capGet caps 1)
      | none => pub_year0
    else pub_year0
  let isbn := get_field fields "020" "a"
  let lcc0 := get_field fields "050" "a"
  let cutter := get_field fields "050" "b"
  let lcc1 := if cutter ≠ "" then pstripS (lcc0 ++ " " ++ cutter) else lcc0
  let dewey := get_field fields "082" "a"
  let lcc2 :=
    if lcc1 = "" then
      let l90 := get_field fields "090" "a"
      let c90 := get_field fields "090" "b"
      if c90 ≠ "" then pstripS (l90 ++ " " ++ c90) else l90
    else lcc1
  let call_number := strOr lcc2 dewey
  let physical_desc := get_field fields "300" "a"
  let summary := get_field fields "520" "a"
  let subjects := get_all_subfields fields "650" "a"
  let full_publisher0 := if pub_place ≠ "" then rstripS " :," pub_place else ""
  let full_publisher :=
    if publisher ≠ "" then
      (if full_publisher0 ≠ "" then full_publisher0 ++ ": " else full_publisher0) ++
        rstripS " ," publisher
    else full_publisher0
  { biblio_id := biblio_id
    title := titleOr (rstripS " /" title1) biblio_id
    author := rstripS " ," author
    publication_year := some pub_year
    publisher := full_publisher
    isbn := isbn
    call_number := call_number
    call_number_lcc := lcc2
    call_number_dewey := dewey
    physical_description := physical_desc
    summary := summary
    subjects := subjects }

/-! ## HTML detail extractor (`_get_biblio_from_opac`, lines 631-714) -/

/-- Python `r'<title>([^<]+)</title>'` (IGNORECASE). -/
def reTitleTag : Re := rseq [rlit "<title>",
  .group 1 (rplus (.cls (.noneOf ['<']))), rlit "</title>"]

/-- Python `r'\s*[|›»]\s*.*$'` (no DOTALL: `.` stops at a newline). -/
def reSiteSuffix : Re := rseq [.starG (.cls .space), .cls (.oneOf ['|', '›', '»']),
  .starG (.cls .space), .starG (.cls .dot), .eos]

/-- Python `r'class=["\'][^"\']*title[^"\']*["\'][^>]*>([^<]+)'` (IGNORECASE). -/
def reTitleClass : Re := rseq [rlit "class=", .cls (.oneOf ['"', '\x27']),
  .starG (.cls (.noneOf ['"', '\x27'])), rlit "title",
  .starG (.cls (.noneOf ['"', '\x27'])), .cls (.oneOf ['"', '\x27']),
  .starG (.cls (.noneOf ['>'])), rlit ">", .group 1 (rplus (.cls (.noneOf ['<'])))]

/-- Python `r'class=["\'][^"\']*author[^"\']*["\'][^>]*>([^<]+)'` (IGNORECASE). -/
def reAuthorClass : Re := rseq [rlit "class=", .cls (.oneOf ['"', '\x27']),
  .starG (.cls (.noneOf ['"', '\x27'])), rlit "author",
  .starG (.cls (.noneOf ['"', '\x27'])), .cls (.oneOf ['"', '\x27']),
  .starG (.cls (.noneOf ['>'])), rlit ">", .group 1 (rplus (.cls (.noneOf ['<'])))]

/-- Python `r'[:\s]*'` as it appears inside the labelled patterns. -/
def reColonSpace : Re :=
  Re.starG (.cls (.oneOf [':', ' ', '\t', '\n', '\r', '\x0b', '\x0c']))

/-- Python `r'(?:published|copyright|date)[:\s]*(\d{4})'` (IGNORECASE). -/
def reLabeledYear : Re := rseq
  [.alt (rlit "published") (.alt (rlit "copyright") (rlit "date")), reColonSpace,
   .group 1 (rseq [.cls .digit, .cls .digit, .cls .digit, .cls .digit])]

/-- Python `r'(?:publisher|imprint)[:\s]*([^<\n]+)'` (IGNORECASE). -/
def rePublisherLabel : Re := rseq [.alt (rlit "publisher") (rlit "imprint"),
  reColonSpace, .group 1 (rplus (.cls (.noneOf ['<', '\n'])))]

/-- Python `r'(?:ISBN)[:\s]*([\d\-X]+)'` (IGNORECASE). -/
def reIsbnPat : Re := rseq [rlit "ISBN", reColonSpace,
  .group 1 (rplus (.alt (.cls .digit) (.cls (.oneOf ['-', 'X']))))]

/-- Python `r'(?:call\s*number|shelfmark)[:\s]*([^<\n]+)'` (IGNORECASE). -/
def reCallNumLabel : Re := rseq
  [.alt (rseq [rlit "call", .starG (.cls .space), rlit "number"]) (rlit "shelfmark"),
   reColonSpace, .group 1 (rplus (.cls (.noneOf ['<', '\n'])))]

/-- Python `r'\b((?:19|20)\d{2})\b'`: scan left to right for a 4-digit year
starting 19 or 20, word-bounded on both sides (`\w` = ASCII alphanumeric or
underscore); `prev` is the character before the current position. -/
def findYear19or20 : Option Char → List Char → Option (List Char)
  | prev, a :: b :: c :: d :: rest =>
    if prev.all (fun p => !pyWordChar p) &&
        ((a == '1' && b == '9') || (a == '2' && b == '0')) &&
        c.isDigit && d.isDigit &&
        (match rest with | [] => true | e :: _ => !pyWordChar e) then
      some [a, b, c, d]
    else findYear19or20 (some a) (b :: c :: d :: rest)
  | _, _ => none

/-- The HTML-detail-page field extraction of `_get_biblio_from_opac`
(lines 646-710): the 200-status branch building a best-effort record. -/
def parse_opac_detail_html (biblio_id : Nat) (html : String) : BiblioRecord :=
  let h := html.data
  let title :=
    match searchFrom reTitleTag h with
    | some (c, _) => reSubAll reSiteSuffix (pstrip (capGet c 1))
    | none => []
  let title :=
    match searchFrom reTitleClass h with
    | some (c, _) => pstrip (capGet c 1)
    | none => title
  let author :=
    match searchFrom reAuthorClass h with
    | some (c, _) => pstrip (capGet c 1)
    | none => []
  let pub_year :=
    match searchFrom reLabeledYear h with
    | some (c, _) => some (String.mk (capGet c 1))
    | none =>
      match findYear19or20 none h with
      | some y => some (String.mk y)
      | none => none
  let publisher :=
    match searchFrom rePublisherLabel h with
    | some (c, _) => pstrip (capGet c 1)
    | none => []
  let isbn :=
    match searchFrom reIsbnPat h with
    | some (c, _) => pstrip (capGet c 1)
    | none => []
  let call_number :=
    match searchFrom reCallNumLabel h with
    | some (c, _) => pstrip (capGet c 1)
    | none => []
  { biblio_id := biblio_id
    title := titleOr (String.mk title) biblio_id
    author := String.mk author
    publication_year := pub_year
    publisher := String.mk publisher
    isbn := String.mk isbn
    call_number := String.mk call_number }

/-! ## Fetch orchestration (`get_biblio`, `search_biblios`) -/

/-- Outcome of one `httpx` request: a response (status code plus an
already-decoded body) or a raised exception with its stringified message.
`body` is only inspected on status 200, matching the code; a body that
fails JSON decoding raises inside the `try` and is the `exn` case. -/
inductive HttpOutcome (β : Type) where
  | ok (status : Int) (body : β)
  | exn (msg : String)
deriving DecidableEq

/-- `KohaAPIClient._get_biblio_marcjson` (lines 494-520): 200 → parse
MARC-in-JSON; 404 → "Record not found"; other status → "API error: {status}";
exception → its message.  (The `self._client is None` guard is outside the
model: the client is initialized for the orchestration claims.) -/
def get_biblio_marcjson (biblio_id : Nat) (o : HttpOutcome MarcJson) :
    Option BiblioRecord × Option String :=
  match o with
  | .ok st body =>
    if st = 200 then (some (parse_marc_in_json biblio_id body), none)
    else if st = 404 then (none, some "Record not found")
    else (none, some ("API error: " ++ toString st))
  | .exn e => (none, some e)

/-- `KohaAPIClient._get_biblio_from_opac` (lines 631-714): non-200 status →
"HTTP {status}"; 200 → parse the detail page; exception → its message. -/
def get_biblio_from_opac (biblio_id : Nat) (o : HttpOutcome String) :
    Option BiblioRecord × Option String :=
  match o with
  | .ok st html =>
    if st ≠ 200 then (none, some ("HTTP " ++ toString st))
    else (some (parse_opac_detail_html biblio_id html), none)
  | .exn e => (none, some e)

/-- `KohaAPIClient.get_biblio` (lines 479-492): return the MARC-in-JSON
result when it produced a record and no error (`if data and not error`;
a dataclass instance is always truthy), else fall back to the OPAC
detail page and return whatever that stage returns. -/
def get_biblio (biblio_id : Nat) (marc : HttpOutcome MarcJson)
    (opac : HttpOutcome String) : Option BiblioRecord × Option String :=
  match get_biblio_marcjson biblio_id marc with
  | (some r0, none) => (some r0, none)
  | _ => get_biblio_from_opac biblio_id opac

/-- `KohaAPIClient._search_via_svc` (lines 279-339): 200 → parse the OPAC
results page, no error; any other status → `(None, None)` (the status is
only logged); exception → `(None, str(e))`. -/
def search_via_svc (o : HttpOutcome String) (page per_page : Int) :
    Option SearchResult × Option String :=
  match o with
  | .ok st html =>
    if st = 200 then (some (parse_opac_html_results html page per_page), none)
    else (none, none)
  | .exn e => (none, some e)

/-- `KohaAPIClient.search_biblios` (lines 204-230): keep a result with at
least one record; otherwise surface the error if any; otherwise return an
empty `SearchResult` with no error. -/
def search_biblios (o : HttpOutcome String) (page per_page : Int) :
    Option SearchResult × Option String :=
  match search_via_svc o page per_page with
  | (some r, err) =>
    if r.records ≠ [] then (some r, none)
    else
      match err with
      | some e => (none, some e)
      | none => (some (SearchResult.mk [] 0 page per_page), none)
  | (none, some e) => (none, some e)
  | (none, none) => (some (SearchResult.mk [] 0 page per_page), none)

/-- The MARC-in-JSON stage "fails" (claim C3): any non-200 status, or a
transport/parse exception. -/
def marcFetchFailed : HttpOutcome MarcJson → Prop
  | .ok st _ => st ≠ 200
  | .exn _ => True

/-! ## Concrete inputs used by the claims -/

/-- A results page with the banner and two well-formed `title_summary`
blocks for biblio ids 7 and 9. -/
def page2Html : String := "<p>Your search returned 2 results.</p><table><tr><td><div id=\"title_summary_7\" class=\"title_summary\"><a href=\"/x\" class=\"title\">Foundation :</a><span class=\"title_resp_stmt\">by Asimov, Isaac.</span></div></td></tr><tr><td><div id=\"title_summary_9\" class=\"title_summary\"><a href=\"/y\" class=\"title\">Dune /</a></div></td></tr></table>"

/-- A results page with no `title_summary` block and one matching checkbox. -/
def pageCbHtml : String := "<form><input type=\"checkbox\" name=\"biblionumber\" value=\"42\" aria-label=\"Select search result: Foundation :\" /></form>"

/-- The checkbox page with an empty title in the aria-label. -/
def pageCbNoTitleHtml : String := "<form><input type=\"checkbox\" name=\"biblionumber\" value=\"42\" aria-label=\"Select search result: \" /></form>"

/-- A detail page from which no heuristic extracts a title. -/
def detailMissingHtml : String := "<html><body>missing</body></html>"

/-- A MARC record with 245 $a and $b and a trailing " /". -/
def marcTitleEx : MarcJson :=
  { fields := [[("245", MarcData.obj [[("a", "Galactic empire :")], [("b", "a novel /")]])]] }

/-! ## The claims -/

/-- C1 counterexample: with `per_page = 10 > 0` and `total_count = 0 ≥ 0`
(inputs the claim covers), the code yields `total_pages = 0`, refuting the
claimed `total_pages ≥ 1`. -/
theorem c1_counterexample :
    0 < (SearchResult.mk [] 0 1 10).per_page
    ∧ 0 ≤ (SearchResult.mk [] 0 1 10).total_count
    ∧ (SearchResult.mk [] 0 1 10).total_pages = 0
    ∧ ¬ 1 ≤ (SearchResult.mk [] 0 1 10).total_pages := by
  refine ⟨by decide, by decide, by decide, by decide⟩

/-- C1 (amended): for per_page > 0 and total_count ≥ 0, `total_pages`
equals `ceil(total_count / per_page)`; it is ≥ 1 whenever total_count ≥ 1
(not for total_count = 0, where it is 0); and per_page ≤ 0 gives 1. -/
theorem c1_total_pages (s : SearchResult) (hpp : 0 < s.per_page)
    (_htc : 0 ≤ s.total_count) :
    (s.total_pages = ⌈(s.total_count : ℚ) / (s.per_page : ℚ)⌉
      ∧ (1 ≤ s.total_count → 1 ≤ s.total_pages))
    ∧ ∀ s' : SearchResult, s'.per_page ≤ 0 → s'.total_pages = 1 := by
  have hdef : s.total_pages = Int.fdiv (s.total_count + s.per_page - 1) s.per_page := by
    unfold SearchResult.total_pages
    rw [if_neg (by omega)]
  set tc := s.total_count with htcdef
  set pp := s.per_page with hppdef
  have hed : s.total_pages = (tc + pp - 1) / pp := by
    rw [hdef, Int.fdiv_eq_ediv _ (by omega)]
  have hgal : ∀ k : Int, s.total_pages ≤ k ↔ tc ≤ k * pp := by
    intro k
    rw [hed]
    constructor
    · intro h
      have h2 : (tc + pp - 1) / pp < k + 1 := by omega
      rw [Int.ediv_lt_iff_lt_mul hpp] at h2
      nlinarith
    · intro h
      have h2 : tc + pp - 1 < (k + 1) * pp := by nlinarith
      have := (Int.ediv_lt_iff_lt_mul hpp (a := tc + pp - 1) (b := k + 1)).mpr h2
      omega
  have hA : tc ≤ s.total_pages * pp := (hgal s.total_pages).mp (le_refl _)
  have hB : (s.total_pages - 1) * pp < tc := by
    have h1 : ¬ s.total_pages ≤ s.total_pages - 1 := by omega
    rw [hgal] at h1
    omega
  have hq : (0 : ℚ) < (pp : ℚ) := by exact_mod_cast hpp
  constructor
  · constructor
    · symm
      rw [Int.ceil_eq_iff]
      constructor
      · rw [lt_div_iff₀ hq]
        exact_mod_cast hB
      · rw [div_le_iff₀ hq]
        exact_mod_cast hA
    · intro h1
      by_contra hcon
      have h2 : s.total_pages ≤ 0 := by omega
      rw [hgal] at h2
      simp at h2
      omega
  · intro s' hpp'
    unfold SearchResult.total_pages
    rw [if_pos hpp']

/-- C1 witness: the amended theorem at total_count = 5, per_page = 2
(total_pages = 3) and at per_page = 0. -/
theorem c1_witness :
    1 ≤ (SearchResult.mk [] 5 1 2).total_pages
    ∧ (SearchResult.mk [] 7 1 0).total_pages = 1 := by
  refine ⟨(c1_total_pages (SearchResult.mk [] 5 1 2) (by decide) (by decide)).1.2 (by decide),
    (c1_total_pages (SearchResult.mk [] 5 1 2) (by decide) (by decide)).2
      (SearchResult.mk [] 7 1 0) (by decide)⟩

/-- C2: the holding parser's status follows the fixed precedence
checked-out > lost > damaged > withdrawn > not-for-loan > available, first
match winning, and `is_available` holds iff no flag is set and the item is
not checked out. -/
theorem c2_item_status (libs : List (String × String)) (d : ItemJson) :
    ((parse_item_json libs d).is_available = true ↔
      (d.not_for_loan_status = 0 ∧ d.lost_status = 0 ∧ d.damaged_status = 0 ∧
        d.withdrawn = 0 ∧ d.checked_out_date = none))
    ∧ (d.checked_out_date ≠ none → (parse_item_json libs d).status = "On Loan")
    ∧ (d.checked_out_date = none → d.lost_status ≠ 0 →
        (parse_item_json libs d).status = "Lost")
    ∧ (d.checked_out_date = none → d.lost_status = 0 → d.damaged_status ≠ 0 →
        (parse_item_json libs d).status = "Damaged")
    ∧ (d.checked_out_date = none → d.lost_status = 0 → d.damaged_status = 0 →
        d.withdrawn ≠ 0 → (parse_item_json libs d).status = "Withdrawn")
    ∧ (d.checked_out_date = none → d.lost_status = 0 → d.damaged_status = 0 →
        d.withdrawn = 0 → d.not_for_loan_status ≠ 0 →
        (parse_item_json libs d).status = "Reference Only")
    ∧ (d.checked_out_date = none → d.lost_status = 0 → d.damaged_status = 0 →
        d.withdrawn = 0 → d.not_for_loan_status = 0 →
        (parse_item_json libs d).status = "Available") := by
  cases hco : d.checked_out_date with
  | none =>
    refine ⟨?_, ?_, ?_, ?_, ?_, ?_, ?_⟩ <;>
      (simp_all [parse_item_json, hco]; try tauto)
  | some v =>
    refine ⟨?_, ?_, ?_, ?_, ?_, ?_, ?_⟩ <;>
      simp_all [parse_item_json, hco]

/-- C2 witness: checked-out together with lost resolves to "On Loan";
damaged alone resolves to "Damaged"; all flags clear is "Available" and
available. -/
theorem c2_witness :
    (parse_item_json [] { checked_out_date := some "2024-01-02"
                          lost_status := 1 }).status = "On Loan"
    ∧ (parse_item_json [] { damaged_status := 1 }).status = "Damaged"
    ∧ (parse_item_json [] {}).status = "Available"
    ∧ (parse_item_json [] {}).is_available = true := by
  refine ⟨(c2_item_status [] _).2.1 (by decide), ?_, ?_, ?_⟩
  · exact (c2_item_status [] _).2.2.2.1 rfl rfl (by decide)
  · exact (c2_item_status [] _).2.2.2.2.2.2 rfl rfl rfl rfl rfl
  · exact ((c2_item_status [] _).1).mpr ⟨rfl, rfl, rfl, rfl, rfl⟩

/-- C3: when the MARC-in-JSON stage fails (any non-200 status or an
exception), `get_biblio` returns exactly what the OPAC detail stage
returns, so a failing detail stage's error — not the MARC-stage error —
is what reaches the caller. -/
theorem c3_get_record_fallback (biblio_id : Nat) (marc : HttpOutcome MarcJson)
    (opac : HttpOutcome String) (h : marcFetchFailed marc) :
    get_biblio biblio_id marc opac = get_biblio_from_opac biblio_id opac
    ∧ ∀ e, (get_biblio_from_opac biblio_id opac).2 = some e →
        (get_biblio biblio_id marc opac).2 = some e := by
  have hmain : get_biblio biblio_id marc opac = get_biblio_from_opac biblio_id opac := by
    cases marc with
    | ok st body =>
      have hst : st ≠ 200 := h
      by_cases h4 : st = 404 <;> simp [get_biblio, get_biblio_marcjson, hst, h4]
    | exn e => rfl
  exact ⟨hmain, fun e he => by rw [hmain]; exact he⟩

/-- C3 witness: a 404 MARC stage followed by a failing (exception) detail
stage yields the detail-stage error. -/
theorem c3_witness :
    get_biblio 3 (HttpOutcome.ok 404 {}) (HttpOutcome.exn "connection refused")
      = (none, some "connection refused") := by
  have h := c3_get_record_fallback 3 (HttpOutcome.ok 404 {})
    (HttpOutcome.exn "connection refused") (by show (404 : Int) ≠ 200; decide)
  rw [h.1]
  rfl

/-- C4: a search whose HTML strategy comes back with zero records and no
error yields an empty `SearchResult` and a null error, while a
transport-level exception yields `(none, error message)`. -/
theorem c4_search_empty_vs_error (page per_page : Int) (o : HttpOutcome String) :
    (∀ r, search_via_svc o page per_page = (some r, none) → r.records = [] →
      search_biblios o page per_page = (some (SearchResult.mk [] 0 page per_page), none))
    ∧ ∀ e, o = HttpOutcome.exn e →
        search_biblios o page per_page = (none, some e) := by
  constructor
  · intro r hsvc hrec
    simp [search_biblios, hsvc, hrec]
  · intro e he
    subst he
    rfl

/-- C4 witness: a 200 response whose page parses to zero records gives the
empty result with no error; an exception gives `(none, its message)`. -/
theorem c4_witness :
    search_biblios (HttpOutcome.ok 200 "<html></html>") 1 10
      = (some (SearchResult.mk [] 0 1 10), none)
    ∧ search_biblios (HttpOutcome.exn "Request timed out") 1 10
      = (none, some "Request timed out") := by
  constructor
  · exact (c4_search_empty_vs_error 1 10 (HttpOutcome.ok 200 "<html></html>")).1
      (parse_opac_html_results "<html></html>" 1 10) rfl (by decide)
  · exact (c4_search_empty_vs_error 1 10 (HttpOutcome.exn "Request timed out")).2
      "Request timed out" rfl

/-- C10: a non-200 OPAC search response (no exception raised) makes
`_search_via_svc` return `(None, None)`, and `search_biblios` then returns
an empty `SearchResult` with a null error — indistinguishable from a
search that legitimately found nothing. -/
theorem c10_non200_search (page per_page st : Int) (html : String) (h : st ≠ 200) :
    search_via_svc (HttpOutcome.ok st html) page per_page = (none, none)
    ∧ search_biblios (HttpOutcome.ok st html) page per_page
        = (some (SearchResult.mk [] 0 page per_page), none) := by
  have hsvc : search_via_svc (HttpOutcome.ok st html) page per_page = (none, none) := by
    simp [search_via_svc, h]
  exact ⟨hsvc, by simp [search_biblios, hsvc]⟩

/-- C10 witness: a 500 response, which would carry results had the status
been 200, is reported as an empty result with no error. -/
theorem c10_witness :
    search_biblios (HttpOutcome.ok 500 page2Html) 1 10
      = (some (SearchResult.mk [] 0 1 10), none) := by
  exact (c10_non200_search 1 10 500 page2Html (by decide)).2

/-- C9: `has_next` holds exactly when `page < total_pages` and `has_prev`
exactly when `page > 1`, for every `SearchResult`. -/
theorem c9_pagination_flags (s : SearchResult) :
    (s.has_next = true ↔ s.page < s.total_pages)
    ∧ (s.has_prev = true ↔ 1 < s.page) := by
  constructor <;> simp [SearchResult.has_next, SearchResult.has_prev]

/-- C8: once the library-name cache holds a mapping, every further
`get_libraries` call returns that mapping unchanged, with no error and no
network request. -/
theorem c8_library_cache (cache : List (String × String))
    (fetched : Option (List LibraryJson) × Option String) (h : cache ≠ []) :
    get_libraries cache fetched = ((cache, none), cache, false) := by
  simp [get_libraries, h]

/-- C8 witness: a second call after a first call stored a mapping returns
the same mapping without a request, whatever the oracle would answer. -/
theorem c8_witness :
    (get_libraries [] (some [{ library_id := "MAIN", name := some "Main Library" }], none)
      = (([("MAIN", "Main Library")], none), [("MAIN", "Main Library")], true))
    ∧ get_libraries [("MAIN", "Main Library")] (none, some "unreachable")
      = (([("MAIN", "Main Library")], none), [("MAIN", "Main Library")], false) := by
  exact ⟨by decide,
    c8_library_cache [("MAIN", "Main Library")] (none, some "unreachable") (by decide)⟩

/-- Record with both classification fields set (claim C6). -/
def lccDeweyRec : BiblioRecord :=
  { biblio_id := 1, call_number_lcc := "PS123", call_number_dewey := "813.5" }

/-- Record with only the generic call number set (claim C6). -/
def genericCnRec : BiblioRecord := { biblio_id := 2, call_number := "X1" }

/-- C6: call-number resolution — mode "both" joins the labelled non-empty
LCC/Dewey segments with " | " and falls back to the generic call number
when both are empty; the function is total (always returns a string). -/
theorem c6_call_number (r : BiblioRecord) (hl : r.call_number_lcc = "")
    (hd : r.call_number_dewey = "") :
    r.get_call_number "both" = r.call_number
    ∧ lccDeweyRec.get_call_number "both" = "LOC: PS123 | DDC: 813.5"
    ∧ lccDeweyRec.get_call_number "lcc" = "PS123"
    ∧ lccDeweyRec.get_call_number "dewey" = "813.5"
    ∧ genericCnRec.get_call_number "both" = "X1" := by
  refine ⟨?_, by decide, by decide, by decide, by decide⟩
  simp only [BiblioRecord.get_call_number, hl, hd]
  norm_num [strOr]
  exact fun h => h.symm

/-- C6 witness: the fallback clause at the record with only the generic
call number set, and at the all-empty record. -/
theorem c6_witness :
    genericCnRec.get_call_number "both" = "X1"
    ∧ ({ biblio_id := 3 } : BiblioRecord).get_call_number "both" = "" := by
  exact ⟨(c6_call_number genericCnRec rfl rfl).1,
    (c6_call_number { biblio_id := 3 } rfl rfl).1⟩

set_option maxRecDepth 20000 in
/-- C5: the HTML result extractor finds the banner count and both
`title_summary` blocks (ids 7 and 9, in order) on the two-result page;
on the block-free page it falls back to the checkbox pattern, yielding
biblio 42 with the trailing " :" stripped from the aria-label title; and
the fallback scan is consulted only when the primary scan yields nothing. -/
theorem c5_html_extraction :
    ((parse_opac_html_results page2Html 1 20).total_count = 2
      ∧ (parse_opac_html_results page2Html 1 20).records.map
          (fun r => r.biblio_id) = [7, 9])
    ∧ (parse_opac_html_results pageCbHtml 1 20).records.map
        (fun r => (r.biblio_id, r.title)) = [(42, "Foundation")]
    ∧ ∀ (html : String) (page per_page : Int),
        parsePrimaryRecords html.data ≠ [] →
        (parse_opac_html_results html page per_page).records
          = parsePrimaryRecords html.data := by
  refine ⟨⟨by decide, by decide⟩, by decide, ?_⟩
  intro html page per_page h
  simp [parse_opac_html_results, h]

set_option maxRecDepth 20000 in
/-- C5 witness: on the two-result page the primary scan is non-empty and
is exactly what the extractor returns. -/
theorem c5_witness :
    (parse_opac_html_results page2Html 1 20).records
      = parsePrimaryRecords page2Html.data := by
  exact c5_html_extraction.2.2 page2Html 1 20 (by decide)

set_option maxRecDepth 20000 in
/-- C7: the MARC title is 245 $a (plus $b when present) with trailing
" /" characters stripped, defaulting to "Record #{id}" when empty; and
each of the three parsers renders a missing/empty title as
"Record #{biblio_id}". -/
theorem c7_title_fallback (biblio_id : Nat) (data : MarcJson) :
    (parse_marc_in_json biblio_id data).title =
      (let a := get_field data.fields "245" "a"
       let b := get_field data.fields "245" "b"
       let t := rstripS " /" (if b ≠ "" then pstripS (a ++ " " ++ b) else a)
       if t = "" then "Record #" ++ toString biblio_id else t)
    ∧ (parse_marc_in_json 5 {}).title = "Record #5"
    ∧ (parse_marc_in_json 6 marcTitleEx).title = "Galactic empire : a novel"
    ∧ (parse_opac_html_results pageCbNoTitleHtml 1 10).records.map
        (fun r => r.title) = ["Record #42"]
    ∧ (parse_opac_detail_html 9 detailMissingHtml).title = "Record #9" := by
  refine ⟨rfl, by decide, by decide, by decide, by decide⟩
